import Mathlib

/-!
Verification of the message-exchange and completion-request flow of the
chat application (Vue 3 + TypeScript single-page chat UI).

The development shallowly embeds the flow's three pieces:

* the Completion Client: `sendGeminiMessage` (services variant that talks
  to the generative-language HTTP endpoint via `fetch`) and
  `GeminiApiService.generateResponse` (SDK-based class variant),
* the Conversation State: `ChatState` with its message list, typing flag
  and error banner,
* the Exchange Orchestrator: `sendMessage` / `clearChat` from the
  `ChatInterface` component (the variant wired to the Gemini service).

Conventions of the embedding:

* JavaScript timestamps (`Date.now()`, `new Date()`) are `Nat`
  milliseconds supplied as explicit inputs.
* A JavaScript `throw new Error(msg)` is modelled as `Except.error e`
  where `e` is the classified error and `GeminiError.render e` is the
  exact thrown `msg` string; returning normally is `Except.ok`.
* The network transport (`fetch` and the body's JSON parse) is an
  explicit input describing what the network would answer; functions that
  may hit the network also return the number of transport invocations,
  so that "no network call is issued" is a provable statement.
* One run of an `async` function is modelled end-to-end (call to
  settlement); intermediate reactive states are not represented.
-/

namespace ChatApp

/-- JavaScript `String.prototype.trim`: strip leading and trailing
whitespace from a string. Embedded directly over the character list
because the repository's code calls `.trim()` in every validation. -/
def trim (s : String) : String :=
  ⟨((s.data.dropWhile Char.isWhitespace).reverse.dropWhile Char.isWhitespace).reverse⟩

/-- Sender of a chat message; the source stores the strings
`"user" | "ai"` in the `sender` field of `Message`. -/
inductive Sender where
  | user
  | ai
deriving DecidableEq

/-- Message record of `ChatInterface.vue`: `id`, `content`, `sender`,
`timestamp` (a `Date`, modelled as milliseconds). -/
structure Message where
  id : String
  content : String
  sender : Sender
  timestamp : Nat
deriving DecidableEq

/-- Return value of `sendGeminiMessage` (interface `GeminiResponse` in the
services file): the produced text and a success marker. -/
structure GeminiResponse where
  content : String
  success : Bool
deriving DecidableEq

/-- One element of `candidates[i].content.parts` in the endpoint's success
body: an object carrying a `text` field. -/
structure Part where
  text : String
deriving DecidableEq

/-- The `content` object of a candidate, holding the ordered text parts. -/
structure Content where
  parts : List Part
deriving DecidableEq

/-- One candidate of the endpoint's success body. The source reads
`candidates[0].content?.parts`, so `content` may be absent. -/
structure Candidate where
  content : Option Content
deriving DecidableEq

/-- Parsed JSON body of an endpoint response. `errorMessage` models
`errorData.error?.message` (`none` when the `error` object or its
`message` field is absent); `candidates` models `data.candidates`, with
an absent field collapsed to the empty list exactly as the source's
`!data.candidates || data.candidates.length === 0` guard treats it. -/
structure GeminiJson where
  errorMessage : Option String
  candidates : List Candidate
deriving DecidableEq

/-- Result of calling `.json()` on the response: either the parse throws
(with a cause string) or yields a parsed body. -/
inductive BodyJson where
  | malformed (cause : String)
  | parsed (v : GeminiJson)
deriving DecidableEq

/-- Everything the network would answer for the one `fetch` call:
either the fetch promise rejects (transport failure, with a cause) or a
response arrives with `ok`, `status`, `statusText` and a body. -/
inductive FetchOutcome where
  | reject (cause : String)
  | resp (ok : Bool) (status : Nat) (statusText : String) (body : BodyJson)
deriving DecidableEq

/-- Error taxonomy of the Completion Client. Each constructor classifies
one `throw new Error(...)` site of `sendGeminiMessage`; `render` below
gives the exact thrown message string. -/
inductive GeminiError where
  | emptyPrompt
  | missingCredential
  | serviceError (message : String)
  | emptyResponse
  | transportError (cause : String)
deriving DecidableEq

/-- Exact `Error.message` string thrown by `sendGeminiMessage` for each
classified failure. The service-error and empty-response strings contain
the substring matched by the source's catch-all rethrow test
`error.message.includes("Gemini API")`, so they propagate unchanged; the
other throws happen before or around the `try` block as modelled. -/
def GeminiError.render : GeminiError → String
  | GeminiError.emptyPrompt => "Message cannot be empty"
  | GeminiError.missingCredential => "Gemini API key not found. Please configure it in settings."
  | GeminiError.serviceError m => "Gemini API error: " ++ m
  | GeminiError.emptyResponse => "No response from Gemini API"
  | GeminiError.transportError c => "Failed to connect to Gemini API: " ++ c

/-- Status-line fallback `` `${response.status} ${response.statusText}` ``
used when no structured error message is available. -/
def statusLine (status : Nat) (statusText : String) : String :=
  toString status ++ " " ++ statusText

/-- Embedding of `sendGeminiMessage(message)` from the services file.
`apiKey` is `localStorage.getItem("gemini-api-key")` (`none` when the key
is absent); `transport` is what the network would answer. The second
component counts `fetch` invocations (0 or 1). An `Except.error e`
result models the function throwing `new Error(e.render)`:

* empty trimmed message: throws before any network use;
* missing or empty trimmed key: throws before any network use;
* fetch rejection: wrapped by the catch-all into the connect failure;
* non-ok status: the structured `error.message` is used when the body
  parses and the field is present and non-empty (JavaScript truthiness),
  else the status line;
* ok status: unparsable body falls into the catch-all wrap; an empty
  candidate list, absent `content`/`parts`, or empty parts list throws
  the no-response error; otherwise the part texts are joined with no
  separator. -/
def sendGeminiMessage (message : String) (apiKey : Option String)
    (transport : FetchOutcome) : Except GeminiError GeminiResponse × Nat :=
  if trim message = "" then (Except.error GeminiError.emptyPrompt, 0)
  else
    match apiKey with
    | none => (Except.error GeminiError.missingCredential, 0)
    | some key =>
      if trim key = "" then (Except.error GeminiError.missingCredential, 0)
      else
        match transport with
        | FetchOutcome.reject cause =>
          (Except.error (GeminiError.transportError cause), 1)
        | FetchOutcome.resp ok status statusText body =>
          if ok = false then
            match body with
            | BodyJson.malformed _ =>
              (Except.error (GeminiError.serviceError (statusLine status statusText)), 1)
            | BodyJson.parsed v =>
              match v.errorMessage with
              | some m =>
                if m = "" then
                  (Except.error (GeminiError.serviceError (statusLine status statusText)), 1)
                else (Except.error (GeminiError.serviceError m), 1)
              | none =>
                (Except.error (GeminiError.serviceError (statusLine status statusText)), 1)
          else
            match body with
            | BodyJson.malformed cause =>
              (Except.error (GeminiError.transportError cause), 1)
            | BodyJson.parsed v =>
              match v.candidates with
              | [] => (Except.error GeminiError.emptyResponse, 1)
              | c :: _ =>
                match c.content with
                | none => (Except.error GeminiError.emptyResponse, 1)
                | some ct =>
                  match ct.parts with
                  | [] => (Except.error GeminiError.emptyResponse, 1)
                  | ps =>
                    (Except.ok
                      { content := String.join (ps.map fun p => p.text), success := true }, 1)

/-- Result record of `GeminiApiService.generateResponse` (interface
`GeminiApiResponse` in the class-based service file): content, success
marker, and an optional error string. Expected failures are returned in
this record, never thrown. -/
structure GeminiApiResponse where
  content : String
  success : Bool
  error : Option String
deriving DecidableEq

/-- Outcome of the SDK call chain `model.generateContent` /
`result.response` / `response.text()`: either a produced text or a thrown
error whose `message` may be absent (a non-`Error` value was thrown). -/
inductive SdkOutcome where
  | ok (text : String)
  | raise (message : Option String)
deriving DecidableEq

/-- Boolean substring test, modelling `String.prototype.includes`. -/
def strIncludes (s pat : String) : Bool :=
  (List.range (s.data.length + 1)).any fun i => List.isPrefixOf pat.data (s.data.drop i)

/-- Catch-branch classification of `GeminiApiService.generateResponse`:
match known substrings of `error.message`, fall back to the message
itself when truthy, else to the generic failure text. -/
def classifyGenerateError (msg : Option String) : String :=
  match msg with
  | none => "Failed to generate response"
  | some m =>
    if strIncludes m "API_KEY_INVALID" then "Invalid API key"
    else if strIncludes m "SAFETY" then "Content blocked by safety filters"
    else if strIncludes m "QUOTA_EXCEEDED" then "API quota exceeded"
    else if m = "" then "Failed to generate response"
    else m

/-- Embedding of `GeminiApiService.generateResponse(prompt)`.
`modelInitialized` is whether `this.model` is non-null; `sdk` is what the
SDK call would resolve to. Every expected failure is a returned record
with `success := false`, mirroring the source, which never throws here. -/
def generateResponse (modelInitialized : Bool) (prompt : String)
    (sdk : SdkOutcome) : GeminiApiResponse :=
  if trim prompt = "" then
    { content := "", success := false, error := some "Prompt cannot be empty" }
  else if modelInitialized = false then
    { content := "", success := false, error := some "Gemini API not initialized" }
  else
    match sdk with
    | SdkOutcome.ok text =>
      if text = "" then
        { content := "", success := false, error := some "No response generated" }
      else { content := text, success := true, error := none }
    | SdkOutcome.raise msg =>
      { content := "", success := false, error := some (classifyGenerateError msg) }

/-- Reactive state of the `ChatInterface` component (Gemini-wired
variant): the message list, the selected model id, the typing/pending
indicator, the error banner text, and whether `geminiService` is
non-null (an API key was configured at initialization). -/
structure ChatState where
  messages : List Message
  selectedModel : String
  isTyping : Bool
  errorMessage : String
  geminiConfigured : Bool
deriving DecidableEq

/-- Environment of one `sendMessage` run: the clock value when the user
message is created (`now1`), the clock value when the assistant message
is created (`now2`), and what `geminiService.generateResponse` would
resolve to if invoked. -/
structure SubmitEnv where
  now1 : Nat
  now2 : Nat
  geminiResult : GeminiApiResponse
deriving DecidableEq

/-- User message constructed by `sendMessage`:
id `Date.now().toString()`, trimmed content, sender `"user"`. -/
def mkUserMessage (content : String) (now : Nat) : Message :=
  { id := toString now, content := trim content, sender := Sender.user, timestamp := now }

/-- Assistant message constructed by `sendMessage`:
id `(Date.now() + 1).toString()`, the response content, sender `"ai"`. -/
def mkAiMessage (responseContent : String) (now : Nat) : Message :=
  { id := toString (now + 1), content := responseContent, sender := Sender.ai,
    timestamp := now }

/-- Dispatch step of `sendMessage` (the body of its `try` block up to the
response content): on the `"gemini"` model, an unconfigured service
throws, a successful result yields its content, a failed result throws
`result.error || "Failed to get response from Gemini"`; any other model
id yields the echo text with no network call. `Except.error m` models
`throw new Error(m)`; the second component counts completion-client
invocations. -/
def dispatchModel (selectedModel : String) (geminiConfigured : Bool)
    (content : String) (result : GeminiApiResponse) : Except String String × Nat :=
  if selectedModel = "gemini" then
    if geminiConfigured = false then
      (Except.error "Gemini API key not configured. Please set it in settings.", 0)
    else if result.success then (Except.ok result.content, 1)
    else
      match result.error with
      | some e =>
        if e = "" then (Except.error "Failed to get response from Gemini", 1)
        else (Except.error e, 1)
      | none => (Except.error "Failed to get response from Gemini", 1)
  else (Except.ok ("Response from " ++ selectedModel ++ ": " ++ content), 0)

/-- Embedding of `sendMessage(content)` from the Gemini-wired
`ChatInterface` variant, one complete run: blank input is a no-op;
otherwise the user message is pushed, the dispatch runs, and either the
assistant message is pushed (success, banner cleared) or the banner is
set to `error.message || "An error occurred while sending the message"`
(failure); the `finally` block leaves `isTyping` false either way.
The second component counts completion-client invocations. -/
def sendMessage (st : ChatState) (content : String) (env : SubmitEnv) :
    ChatState × Nat :=
  if trim content = "" then (st, 0)
  else
    match dispatchModel st.selectedModel st.geminiConfigured content env.geminiResult with
    | (Except.ok responseContent, calls) =>
      ({ st with
          messages := st.messages ++ [mkUserMessage content env.now1]
            ++ [mkAiMessage responseContent env.now2],
          isTyping := false, errorMessage := "" }, calls)
    | (Except.error msg, calls) =>
      ({ st with
          messages := st.messages ++ [mkUserMessage content env.now1],
          isTyping := false,
          errorMessage :=
            if msg = "" then "An error occurred while sending the message" else msg },
        calls)

/-- Embedding of `clearChat()`: empty the message list and the error
banner. The source touches nothing else (in particular not `isTyping`). -/
def clearChat (st : ChatState) : ChatState :=
  { st with messages := [], errorMessage := "" }

/-- State with the `"gemini"` model selected and the service configured,
used as concrete input for several witnesses. -/
def geminiState : ChatState :=
  { messages := [], selectedModel := "gemini", isTyping := false,
    errorMessage := "", geminiConfigured := true }

/-- Environment in which the completion fails with a service error. -/
def failEnv : SubmitEnv :=
  { now1 := 100, now2 := 100,
    geminiResult := { content := "", success := false, error := some "Invalid API key" } }

/-- Environment in which the completion succeeds at clock 5. -/
def firstEnv : SubmitEnv :=
  { now1 := 5, now2 := 5,
    geminiResult := { content := "Hello.", success := true, error := none } }

/-- Environment in which the completion succeeds at clock 6. -/
def secondEnv : SubmitEnv :=
  { now1 := 6, now2 := 6,
    geminiResult := { content := "Again.", success := true, error := none } }

/-- State whose typing indicator is on, as left mid-exchange. -/
def pendingState : ChatState :=
  { messages := [], selectedModel := "openai", isTyping := true,
    errorMessage := "", geminiConfigured := false }

/-- C8: for every input string that is empty after trimming, submitting
it is a no-op: the state is unchanged (zero messages appended) and no
network call is issued. -/
theorem c8_blank_input_noop (st : ChatState) (content : String)
    (env : SubmitEnv) (h : trim content = "") :
    sendMessage st content env = (st, 0) := by
  simp [sendMessage, h]

/-- Witness for C8 at the whitespace-only input. -/
theorem c8_blank_input_noop_witness :
    trim "   " = "" ∧ sendMessage geminiState "   " failEnv = (geminiState, 0) :=
  ⟨by decide, c8_blank_input_noop geminiState "   " failEnv (by decide)⟩

/-- C3 counterexample: on a prior state whose pending indicator is on,
`clearChat` empties the messages but leaves the pending flag `true`, so
the claimed conjunction (length 0 and pending false) fails. -/
theorem c3_counterexample_pending_survives_clear :
    ¬ ((clearChat pendingState).messages.length = 0 ∧
        (clearChat pendingState).isTyping = false) := by
  decide

/-- C3 (amended): for every prior state, `clearChat` results in a message
sequence of length 0 and an empty error banner, and leaves the pending
flag exactly as it was (so it is false afterwards only when it was false
before; only the completion of an in-flight exchange resets it). -/
theorem c3_clear_empties_messages (st : ChatState) :
    (clearChat st).messages.length = 0 ∧ (clearChat st).errorMessage = "" ∧
    (clearChat st).isTyping = st.isTyping := by
  simp [clearChat]

/-- C9: the Conversation State is append-only: every submission leaves
the prior messages in place, unchanged and in order, only appending a
suffix at the end; the only removal is `clearChat`, which empties the
whole sequence. -/
theorem c9_append_only (st : ChatState) (content : String) (env : SubmitEnv) :
    (∃ tail, (sendMessage st content env).1.messages = st.messages ++ tail) ∧
    (clearChat st).messages = [] := by
  constructor
  · by_cases h : trim content = ""
    · exact ⟨[], by simp [sendMessage, h]⟩
    · rcases hd : dispatchModel st.selectedModel st.geminiConfigured content env.geminiResult
        with ⟨r, calls⟩
      cases r with
      | ok rc =>
        exact ⟨[mkUserMessage content env.now1, mkAiMessage rc env.now2],
          by simp [sendMessage, h, hd]⟩
      | error m =>
        exact ⟨[mkUserMessage content env.now1], by simp [sendMessage, h, hd]⟩
  · rfl

/-- C10: message ids are derived from the clock
(`Date.now().toString()` for the user message, `(Date.now() + 1)` for
the assistant message), so they are not unique: submitting at clock 5
with an immediate completion yields ids "5" and "6", and a second
submission at clock 6 yields a user message with the duplicate id "6",
even though the clock moved strictly forward. The claim (and the
component's own use of `message.id` as the `v-for` `:key`, which relies
on uniqueness) is right and the id scheme is the slip. -/
theorem c10_duplicate_ids :
    (((sendMessage (sendMessage geminiState "hi" firstEnv).1 "again" secondEnv).1.messages.map
        fun m => m.id) = ["5", "6", "6", "7"]) ∧
    ¬ (((sendMessage (sendMessage geminiState "hi" firstEnv).1 "again" secondEnv).1.messages.map
        fun m => m.id).Nodup) := by
  decide

/-- C1 counterexample: a submission whose completion fails ends (typing
indicator off, so the run settled) with exactly one user message and
zero assistant messages — the failure is rendered in the error banner,
not as an assistant message — so "followed eventually by exactly one
assistant Message (success or error-rendered)" fails. -/
theorem c1_counterexample_no_assistant :
    ((sendMessage geminiState "hi" failEnv).1.messages.countP
        fun m => decide (m.sender = Sender.ai)) = 0 ∧
    ((sendMessage geminiState "hi" failEnv).1.messages.countP
        fun m => decide (m.sender = Sender.user)) = 1 ∧
    (sendMessage geminiState "hi" failEnv).1.isTyping = false := by
  decide

/-- C1 (amended): for every input whose trimmed form is non-empty,
submitting it appends exactly one user message whose content is the
trimmed input and whose sender is user; when the dispatch succeeds with
some response content, exactly one assistant message carrying exactly
that content follows the user message; when the dispatch fails, no
assistant message is appended and the failure is rendered in the
(non-empty) error banner instead. -/
theorem c1_user_appended_assistant_or_banner (st : ChatState)
    (content : String) (env : SubmitEnv) (h : trim content ≠ "") :
    (mkUserMessage content env.now1).content = trim content ∧
    (mkUserMessage content env.now1).sender = Sender.user ∧
    (∀ rc calls,
      dispatchModel st.selectedModel st.geminiConfigured content env.geminiResult
        = (Except.ok rc, calls) →
      (sendMessage st content env).1.messages
        = st.messages ++ [mkUserMessage content env.now1, mkAiMessage rc env.now2] ∧
      (mkAiMessage rc env.now2).sender = Sender.ai ∧
      (mkAiMessage rc env.now2).content = rc) ∧
    (∀ msg calls,
      dispatchModel st.selectedModel st.geminiConfigured content env.geminiResult
        = (Except.error msg, calls) →
      (sendMessage st content env).1.messages
        = st.messages ++ [mkUserMessage content env.now1] ∧
      (sendMessage st content env).1.errorMessage ≠ "") := by
  refine ⟨rfl, rfl, ?_, ?_⟩
  · intro rc calls hd
    exact ⟨by simp [sendMessage, h, hd], rfl, rfl⟩
  · intro msg calls hd
    refine ⟨by simp [sendMessage, h, hd], ?_⟩
    simp only [sendMessage, if_neg h, hd]
    by_cases hm : msg = "" <;> simp [hm]

/-- Witness for C1 (amended): input "hi" once on a successful exchange —
its dispatch yields the content "Hello.", so exactly the user message
and the assistant message carrying "Hello." are appended — and once on
a failing exchange — its dispatch throws, so only the user message is
appended and the banner is non-empty. -/
theorem c1_user_appended_assistant_or_banner_witness :
    trim "hi" ≠ "" ∧
    dispatchModel geminiState.selectedModel geminiState.geminiConfigured "hi"
        firstEnv.geminiResult = (Except.ok "Hello.", 1) ∧
    ((sendMessage geminiState "hi" firstEnv).1.messages
        = geminiState.messages
          ++ [mkUserMessage "hi" firstEnv.now1, mkAiMessage "Hello." firstEnv.now2] ∧
      (mkAiMessage "Hello." firstEnv.now2).sender = Sender.ai ∧
      (mkAiMessage "Hello." firstEnv.now2).content = "Hello.") ∧
    dispatchModel geminiState.selectedModel geminiState.geminiConfigured "hi"
        failEnv.geminiResult = (Except.error "Invalid API key", 1) ∧
    ((sendMessage geminiState "hi" failEnv).1.messages
        = geminiState.messages ++ [mkUserMessage "hi" failEnv.now1] ∧
      (sendMessage geminiState "hi" failEnv).1.errorMessage ≠ "") :=
  ⟨by decide, rfl,
    (c1_user_appended_assistant_or_banner geminiState "hi" firstEnv
        (by decide)).2.2.1 "Hello." 1 rfl,
    rfl,
    (c1_user_appended_assistant_or_banner geminiState "hi" failEnv
        (by decide)).2.2.2 "Invalid API key" 1 rfl⟩

/-- C2: for every submission whose completion fails — including a
transport-level failure, which the class-based service surfaces as a
`success := false` result, and the unconfigured-service throw — the run
ends with the typing indicator reset to false, the conversation holding
exactly the already-appended user message after the prior messages, and
a non-empty error banner as the visible error indication. -/
theorem c2_pending_reset_on_failure (st : ChatState) (content : String)
    (env : SubmitEnv) (h : trim content ≠ "") (msg : String) (calls : Nat)
    (hfail : dispatchModel st.selectedModel st.geminiConfigured content env.geminiResult
      = (Except.error msg, calls)) :
    (sendMessage st content env).1.isTyping = false ∧
    (sendMessage st content env).1.messages
      = st.messages ++ [mkUserMessage content env.now1] ∧
    (sendMessage st content env).1.errorMessage ≠ "" := by
  refine ⟨by simp [sendMessage, h, hfail], by simp [sendMessage, h, hfail], ?_⟩
  simp only [sendMessage, if_neg h, hfail]
  by_cases hm : msg = "" <;> simp [hm]

/-- Witness for C2 at a concrete failing exchange. -/
theorem c2_pending_reset_on_failure_witness :
    trim "hi" ≠ "" ∧
    dispatchModel geminiState.selectedModel geminiState.geminiConfigured "hi"
        failEnv.geminiResult = (Except.error "Invalid API key", 1) ∧
    ((sendMessage geminiState "hi" failEnv).1.isTyping = false ∧
      (sendMessage geminiState "hi" failEnv).1.messages
        = geminiState.messages ++ [mkUserMessage "hi" failEnv.now1] ∧
      (sendMessage geminiState "hi" failEnv).1.errorMessage ≠ "") :=
  ⟨by decide, rfl,
    c2_pending_reset_on_failure geminiState "hi" failEnv (by decide)
      "Invalid API key" 1 rfl⟩

/-- C4: on every non-success HTTP status, when the body parses and
carries a (truthy, i.e. non-empty) structured error message, the client
classifies the failure as `serviceError` with exactly that message; when
the body cannot be parsed, it classifies it as `serviceError` with
exactly the status line "status code, space, status text". -/
theorem c4_service_error_classification (prompt key : String)
    (hp : trim prompt ≠ "") (hk : trim key ≠ "")
    (status : Nat) (statusText : String) :
    (∀ m : String, m ≠ "" → ∀ cands : List Candidate,
      (sendGeminiMessage prompt (some key)
          (FetchOutcome.resp false status statusText
            (BodyJson.parsed { errorMessage := some m, candidates := cands }))).1
        = Except.error (GeminiError.serviceError m)) ∧
    (∀ cause : String,
      (sendGeminiMessage prompt (some key)
          (FetchOutcome.resp false status statusText (BodyJson.malformed cause))).1
        = Except.error (GeminiError.serviceError (statusLine status statusText))) := by
  constructor
  · intro m hm cands
    simp [sendGeminiMessage, hp, hk, hm]
  · intro cause
    simp [sendGeminiMessage, hp, hk]

/-- Witness for C4: status 401 Unauthorized with the body carrying
"Invalid API key", and with an unparsable body. -/
theorem c4_service_error_classification_witness :
    trim "hi" ≠ "" ∧ trim "k" ≠ "" ∧ "Invalid API key" ≠ "" ∧
    (sendGeminiMessage "hi" (some "k")
        (FetchOutcome.resp false 401 "Unauthorized"
          (BodyJson.parsed { errorMessage := some "Invalid API key", candidates := [] }))).1
      = Except.error (GeminiError.serviceError "Invalid API key") ∧
    (sendGeminiMessage "hi" (some "k")
        (FetchOutcome.resp false 401 "Unauthorized" (BodyJson.malformed "bad json"))).1
      = Except.error (GeminiError.serviceError "401 Unauthorized") :=
  ⟨by decide, by decide, by decide,
    (c4_service_error_classification "hi" "k" (by decide) (by decide)
      401 "Unauthorized").1 "Invalid API key" (by decide) [],
    (c4_service_error_classification "hi" "k" (by decide) (by decide)
      401 "Unauthorized").2 "bad json"⟩

/-- C5: on every success response whose first candidate carries a
non-empty ordered list of text parts, the client returns `ok` with
content equal to the concatenation of the part texts in order with no
added separator. -/
theorem c5_success_concatenates_parts (prompt key : String)
    (hp : trim prompt ≠ "") (hk : trim key ≠ "")
    (status : Nat) (statusText : String) (em : Option String)
    (p : Part) (ps : List Part) (rest : List Candidate) :
    (sendGeminiMessage prompt (some key)
        (FetchOutcome.resp true status statusText
          (BodyJson.parsed
            { errorMessage := em,
              candidates := { content := some { parts := p :: ps } } :: rest }))).1
      = Except.ok
          { content := String.join ((p :: ps).map fun q => q.text), success := true } := by
  simp [sendGeminiMessage, hp, hk]

/-- Witness for C5 at the segments from the spec's round-trip example:
the parts "Hello! " and "How can I help?" concatenate to
"Hello! How can I help?". -/
theorem c5_success_concatenates_parts_witness :
    trim "hi" ≠ "" ∧ trim "k" ≠ "" ∧
    (sendGeminiMessage "hi" (some "k")
        (FetchOutcome.resp true 200 "OK"
          (BodyJson.parsed
            { errorMessage := none,
              candidates := [{ content := some { parts :=
                [{ text := "Hello! " }, { text := "How can I help?" }] } }] }))).1
      = Except.ok { content := "Hello! How can I help?", success := true } :=
  ⟨by decide, by decide,
    c5_success_concatenates_parts "hi" "k" (by decide) (by decide) 200 "OK" none
      ⟨"Hello! "⟩ [⟨"How can I help?"⟩] []⟩

/-- C6: every success response with zero segments makes the client fail
with the empty-response classification instead of returning ok: an empty
candidate list, a first candidate with no content object, and a first
candidate with an empty parts list; likewise the class-based service
returns its no-response failure when the SDK produces the empty text. -/
theorem c6_empty_response (prompt key : String)
    (hp : trim prompt ≠ "") (hk : trim key ≠ "")
    (status : Nat) (statusText : String) (em : Option String) :
    ((sendGeminiMessage prompt (some key)
        (FetchOutcome.resp true status statusText
          (BodyJson.parsed { errorMessage := em, candidates := [] }))).1
      = Except.error GeminiError.emptyResponse) ∧
    (∀ rest : List Candidate,
      (sendGeminiMessage prompt (some key)
          (FetchOutcome.resp true status statusText
            (BodyJson.parsed
              { errorMessage := em,
                candidates := { content := none } :: rest }))).1
        = Except.error GeminiError.emptyResponse) ∧
    (∀ rest : List Candidate,
      (sendGeminiMessage prompt (some key)
          (FetchOutcome.resp true status statusText
            (BodyJson.parsed
              { errorMessage := em,
                candidates := { content := some { parts := [] } } :: rest }))).1
        = Except.error GeminiError.emptyResponse) ∧
    generateResponse true prompt (SdkOutcome.ok "")
      = { content := "", success := false, error := some "No response generated" } := by
  refine ⟨?_, ?_, ?_, ?_⟩
  · simp [sendGeminiMessage, hp, hk]
  · intro rest; simp [sendGeminiMessage, hp, hk]
  · intro rest; simp [sendGeminiMessage, hp, hk]
  · simp [generateResponse, hp]

/-- Witness for C6 at a response with zero candidates (and the other
zero-segment shapes at concrete inputs). -/
theorem c6_empty_response_witness :
    trim "hi" ≠ "" ∧ trim "k" ≠ "" ∧
    ((sendGeminiMessage "hi" (some "k")
        (FetchOutcome.resp true 200 "OK"
          (BodyJson.parsed { errorMessage := none, candidates := [] }))).1
      = Except.error GeminiError.emptyResponse) ∧
    ((sendGeminiMessage "hi" (some "k")
        (FetchOutcome.resp true 200 "OK"
          (BodyJson.parsed
            { errorMessage := none,
              candidates := [{ content := none }] }))).1
      = Except.error GeminiError.emptyResponse) ∧
    ((sendGeminiMessage "hi" (some "k")
        (FetchOutcome.resp true 200 "OK"
          (BodyJson.parsed
            { errorMessage := none,
              candidates := [{ content := some { parts := [] } }] }))).1
      = Except.error GeminiError.emptyResponse) ∧
    generateResponse true "hi" (SdkOutcome.ok "")
      = { content := "", success := false, error := some "No response generated" } :=
  ⟨by decide, by decide,
    (c6_empty_response "hi" "k" (by decide) (by decide) 200 "OK" none).1,
    (c6_empty_response "hi" "k" (by decide) (by decide) 200 "OK" none).2.1 [],
    (c6_empty_response "hi" "k" (by decide) (by decide) 200 "OK" none).2.2.1 [],
    (c6_empty_response "hi" "k" (by decide) (by decide) 200 "OK" none).2.2.2⟩

/-- C7 counterexample: for the empty prompt, `sendGeminiMessage` raises
the classified failure as a thrown exception — `Except.error` in this
embedding stands for `throw new Error(...)`, here with the exact message
"Message cannot be empty" given by `render` — instead of returning a
classified result value, refuting the claim's last clause (the no-call
and classification clauses do hold, as the amended theorem shows). -/
theorem c7_counterexample_thrown_not_returned :
    (sendGeminiMessage "" (some "k") (FetchOutcome.reject "offline")).1
      = Except.error GeminiError.emptyPrompt ∧
    GeminiError.render GeminiError.emptyPrompt = "Message cannot be empty" ∧
    (sendGeminiMessage "" (some "k") (FetchOutcome.reject "offline")).2 = 0 := by
  refine ⟨rfl, by decide, by decide⟩

/-- C7 (amended): an empty-after-trimming prompt fails with the
empty-prompt classification and a missing or empty-after-trimming
credential with the missing-credential classification, in both cases
with zero network calls; in `sendGeminiMessage` the classified failure
is raised as a thrown exception (later caught and rendered by the
orchestrator), while `GeminiApiService.generateResponse` returns its
validation failure as a classified result value. -/
theorem c7_validation_failures (prompt : String) (key : Option String)
    (transport : FetchOutcome) :
    (trim prompt = "" →
      sendGeminiMessage prompt key transport
        = (Except.error GeminiError.emptyPrompt, 0)) ∧
    (trim prompt ≠ "" → (∀ k, key = some k → trim k = "") →
      sendGeminiMessage prompt key transport
        = (Except.error GeminiError.missingCredential, 0)) ∧
    (trim prompt = "" →
      generateResponse true prompt (SdkOutcome.ok "whatever")
        = { content := "", success := false, error := some "Prompt cannot be empty" }) := by
  refine ⟨?_, ?_, ?_⟩
  · intro h
    simp [sendGeminiMessage, h]
  · intro h hk
    cases key with
    | none => simp [sendGeminiMessage, h]
    | some k => simp [sendGeminiMessage, h, hk k rfl]
  · intro h
    simp [generateResponse, h]

/-- Witness for C7 (amended) at a whitespace prompt, a missing
credential, and the class-based service's result value. -/
theorem c7_validation_failures_witness :
    (trim " " = "" ∧
      sendGeminiMessage " " (some "k") (FetchOutcome.reject "offline")
        = (Except.error GeminiError.emptyPrompt, 0)) ∧
    (trim "hi" ≠ "" ∧
      sendGeminiMessage "hi" none (FetchOutcome.reject "offline")
        = (Except.error GeminiError.missingCredential, 0)) ∧
    generateResponse true " " (SdkOutcome.ok "whatever")
      = { content := "", success := false, error := some "Prompt cannot be empty" } :=
  ⟨⟨by decide,
      (c7_validation_failures " " (some "k") (FetchOutcome.reject "offline")).1 (by decide)⟩,
    ⟨by decide,
      (c7_validation_failures "hi" none (FetchOutcome.reject "offline")).2.1 (by decide)
        (fun k hk => nomatch hk)⟩,
    (c7_validation_failures " " (some "k") (FetchOutcome.reject "offline")).2.2 (by decide)⟩

end ChatApp
